import Mathlib

/-!
Shallow embedding of `src/app.py` (promo_ui): a small Flask application with
a login form, a dashboard that renders templated campaign directions and
storyboards, a logout route, and a JSON endpoint invoking a (stubbed)
video-generation client.  Pure helpers are translated as Lean functions;
each request handler is a function from the incoming session and request
data to a response paired with the outgoing session.  String literals are
copied byte-for-byte from the source (including the U+00A0 no-break spaces
in the scene headers and the U+2011 non-breaking hyphens in the direction
texts).
-/

/-! ## Python `int()` on strings

`dashboard` calls the builtin `int` on form-field strings inside
`try/except ValueError`.  `pyInt` models CPython `int(str)` on ASCII input:
surrounding whitespace is stripped, an optional sign is followed by a
non-empty digit run in which single underscores may separate digits;
anything else is a parse failure (`none`, the `ValueError` case). -/

def isPySpace (c : Char) : Bool :=
  c = ' ' || c = '\t' || c = '\n' || c = '\r' || c = Char.ofNat 11 || c = Char.ofNat 12

def pyDigitsGo (acc : Nat) : List Char → Option Nat
  | [] => some acc
  | '_' :: c :: cs =>
      if c.isDigit then pyDigitsGo (acc * 10 + (c.toNat - 48)) cs else none
  | ['_'] => none
  | c :: cs =>
      if c.isDigit then pyDigitsGo (acc * 10 + (c.toNat - 48)) cs else none

def pyDigits : List Char → Option Nat
  | [] => none
  | c :: cs => if c.isDigit then pyDigitsGo (c.toNat - 48) cs else none

def pyInt (s : String) : Option Int :=
  let cs := s.toList.dropWhile isPySpace
  let cs := ((cs.reverse.dropWhile isPySpace).reverse)
  match cs with
  | '+' :: rest => (pyDigits rest).map Int.ofNat
  | '-' :: rest => (pyDigits rest).map (fun n => -(n : Int))
  | rest => (pyDigits rest).map Int.ofNat

/-! ## Credential store (src/app.py lines 50-53) -/

/-- The hard-coded user dictionary `USERS`, as an ordered association list. -/
def USERS : List (String × String) :=
  [("demo", "password123"), ("admin", "admin")]

/-! ## Content generator (src/app.py lines 63-174) -/

/-- `generate_directions` (src/app.py lines 63-102): three templated
direction paragraphs keyed `safe`, `innovative`, `experimental`, in the
insertion order of the returned dict. -/
def generate_directions (product : String) : List (String × String) :=
  let safe :=
    "Focus on the core benefits of " ++ product ++
    " and highlight its reliability and ease of use.  Use straightforward visuals, clear messaging, and a friendly tone that reinforces trust."
  let innovative :=
    "Emphasise how " ++ product ++
    " pushes boundaries by showcasing its unique features or cutting‑edge technology.  Incorporate dynamic camera movements, modern graphic overlays, and a forward‑thinking narrative."
  let experimental :=
    "Take a bold, artistic approach to expressing the essence of " ++ product ++
    ".  Use abstract storytelling, unexpected metaphors, or surreal visuals that evoke emotion and curiosity."
  [("safe", safe), ("innovative", innovative), ("experimental", experimental)]

/-- One storyboard scene: a dict with `description` and `prompt` keys. -/
structure Scene where
  description : String
  prompt : String
deriving DecidableEq, Repr

/-- `build_scenes` (src/app.py lines 136-168), the inner helper of
`generate_storyboards`.  The third scene's description reproduces the
source exactly: the second string literal of that description has no `f`
prefix in the Python source, so `\x7badjective\x7d` and `\x7bproduct\x7d`
appear literally in its value instead of being interpolated. -/
def build_scenes (product : String) (segment_length : Int) (adjective : String) :
    List Scene :=
  [ { description :=
        "Scene 1 (" ++ toString segment_length ++ "s): Introduce " ++ product ++
        " in a " ++ adjective ++ " way, highlighting its main value proposition."
    , prompt :=
        "An opening shot that showcases " ++ product ++ " with " ++ adjective ++
        " tone; smooth camera movement and soft lighting." }
  , { description :=
        "Scene 2 (" ++ toString segment_length ++ "s): Expand on how " ++ product ++
        " benefits the target audience, incorporating a " ++ adjective ++
        " visual metaphor."
    , prompt :=
        "A middle shot using a " ++ adjective ++ " metaphor to illustrate " ++ product ++
        "\x27s advantage; dynamic transitions and engaging colours." }
  , { description :=
        "Scene 3 (" ++ toString segment_length ++
        "s): Conclude by motivating viewers to act, leaving them with a memorable \x7badjective\x7d impression of \x7bproduct\x7d."
    , prompt :=
        "A closing shot that leaves a strong " ++ adjective ++ " impression of " ++
        product ++ "; dramatic composition and inspiring text overlay." }
  ]

/-- `generate_storyboards` (src/app.py lines 105-174).  `num_videos` is a
parameter of the source function but is never read by its body; Python
`duration // 3` is floor division, hence `Int.fdiv`. -/
def generate_storyboards (product : String) (num_videos duration : Int) :
    List (String × List Scene) :=
  let segment_length : Int := max 1 (Int.fdiv duration 3)
  [ ("safe", build_scenes product segment_length "safe and trustworthy")
  , ("innovative", build_scenes product segment_length "innovative and modern")
  , ("experimental", build_scenes product segment_length "experimental and artistic") ]

/-! ## Video task client (src/app.py lines 177-271) -/

/-- The dict returned by `call_hailuo_api`: optional `task_id`, `video_url`
and `message` entries (an absent key is `none`). -/
structure VideoTaskResult where
  task_id : Option String
  video_url : Option String
  message : Option String
deriving DecidableEq, Repr

/-- Side effects performed by one call: HTTP requests issued and seconds
slept.  The executed body of `call_hailuo_api` performs neither (its live
block is a bare string-literal expression, a no-op). -/
structure CallTrace where
  httpRequests : Nat
  sleepSeconds : Nat
deriving DecidableEq, Repr

/-- `call_hailuo_api` (src/app.py lines 177-271) as executed.  The guard
`if not HAILUO_API_KEY` is Python truthiness: it fires when the key is
unset (`none`) or the empty string.  Parameters `prompt`, `duration`,
`image`, `end_image` and `resolution` exist in the source signature but
are not read on any executed path. -/
def call_hailuo_api (prompt : Option String) (duration : Int)
    (image end_image : Option String) (resolution : String)
    (apiKey : Option String) : VideoTaskResult × CallTrace :=
  if apiKey = none || apiKey = some "" then
    ( { task_id := none, video_url := none
      , message := some "Hailuo API key not configured; skipping real API call." }
    , { httpRequests := 0, sleepSeconds := 0 } )
  else
    ( { task_id := none, video_url := none
      , message := some "Networking disabled; returning placeholder response." }
    , { httpRequests := 0, sleepSeconds := 0 } )

/-- One entry of the `videos` array of a poll response; `.get("video_url")`
yields `none` when the key is absent. -/
structure PollVideo where
  video_url : Option String
deriving DecidableEq, Repr

/-- The decoded JSON of one task-result poll: `data.get("task", {}).get("status")`
and `data.get("videos", [])`. -/
structure PollData where
  status : Option String
  videos : List PollVideo
deriving DecidableEq, Repr

/-- `videos[0].get("video_url") if videos else None` (src/app.py line 256). -/
def firstVideoUrl : List PollVideo → Option String
  | [] => none
  | v :: _ => v.video_url

/-- The polling loop of the disabled live block (src/app.py lines 245-263):
`for _ in range(60)` starting at attempt index `i` with `fuel` iterations
left.  Returns the result dict together with the number of `time.sleep(1)`
calls performed.  A `TASK_STATUS_SUCCEED` poll returns a dict without a
`message` key; a `TASK_STATUS_FAILED` poll returns "Generation failed";
any other status sleeps one second and polls again; an exhausted loop
returns the timeout dict. -/
def hailuoPoll (tid : String) (poll : Nat → PollData) : Nat → Nat → VideoTaskResult × Nat
  | _, 0 =>
      ({ task_id := some tid, video_url := none
       , message := some "Timed out waiting for video" }, 0)
  | i, fuel + 1 =>
      let data := poll i
      if data.status = some "TASK_STATUS_SUCCEED" then
        ({ task_id := some tid, video_url := firstVideoUrl data.videos
         , message := none }, 0)
      else if data.status = some "TASK_STATUS_FAILED" then
        ({ task_id := some tid, video_url := none
         , message := some "Generation failed" }, 0)
      else
        let r := hailuoPoll tid poll (i + 1) fuel
        (r.1, r.2 + 1)

/-- The disabled live path of `call_hailuo_api` (the block at src/app.py
lines 215-264, commented out in this deployment), with the network
responses supplied as inputs: `task_id` is the value of
`response.json().get("task_id")` from the job-creation request, and
`poll n` decodes the n-th task-result poll.  Python `if not task_id`
(line 240) raises `RuntimeError` when the id is `None` or empty, modelled
as `Except.error`.  Transport faults (`raise_for_status`) are outside the
model; the result carries the count of one-second sleeps. -/
def call_hailuo_api_live (task_id : Option String) (poll : Nat → PollData) :
    Except String (VideoTaskResult × Nat) :=
  match task_id with
  | none => .error "Failed to get task_id from Hailuo API response"
  | some tid =>
      if tid = "" then .error "Failed to get task_id from Hailuo API response"
      else .ok (hailuoPoll tid poll 0 60)

/-- A poll response is terminal when its status is `TASK_STATUS_SUCCEED`
or `TASK_STATUS_FAILED`. -/
def isTerminal (d : PollData) : Bool :=
  d.status == some "TASK_STATUS_SUCCEED" || d.status == some "TASK_STATUS_FAILED"

/-- The dict the loop returns on a terminal poll response `d`. -/
def terminalResult (tid : String) (d : PollData) : VideoTaskResult :=
  if d.status = some "TASK_STATUS_SUCCEED" then
    { task_id := some tid, video_url := firstVideoUrl d.videos, message := none }
  else
    { task_id := some tid, video_url := none, message := some "Generation failed" }

/-! ## Request handlers (src/app.py lines 278-356) -/

/-- HTTP method of a request (both `/` and `/dashboard` accept GET and POST). -/
inductive Method where
  | get
  | post
deriving DecidableEq, Repr

/-- The Flask session as far as this app uses it: the value of
`session["username"]` when the key is present. -/
abbrev Session := Option String

/-- Python truthiness of `session.get("username")`: present and non-empty. -/
def isAuthenticated : Session → Bool
  | none => false
  | some u => u != ""

/-- The login form fields; `request.form.get` yields `none` for an absent field. -/
structure LoginForm where
  username : Option String
  password : Option String
deriving DecidableEq, Repr

/-- The dashboard brief form fields. -/
structure DashboardForm where
  product : Option String
  num_videos : Option String
  duration : Option String
deriving DecidableEq, Repr

/-- The responses this app can produce: redirects (`url_for("login")` is `/`,
`url_for("dashboard")` is `/dashboard`), the three rendered templates, and
the two JSON responses of the API route. -/
inductive Response where
  | redirect (location : String)
  | loginPage (error : Option String)
  | dashboardPage
  | resultsPage (product : String) (num_videos duration : Int)
      (directions : List (String × String)) (storyboards : List (String × List Scene))
  | jsonError (error : String) (status : Nat)
  | jsonResult (result : VideoTaskResult) (status : Nat)
deriving DecidableEq, Repr

/-- `login` (src/app.py lines 278-294): an authenticated session redirects to
the dashboard; a POST checks `username in USERS and USERS[username] == password`,
on success stores the username in the session and redirects, otherwise
re-renders the login template with the error text; a GET renders with no error. -/
def login (s : Session) (m : Method) (form : LoginForm) : Response × Session :=
  if isAuthenticated s then (.redirect "/dashboard", s)
  else
    match m with
    | .post =>
        match form.username with
        | some u =>
            match USERS.lookup u with
            | some pw =>
                if form.password = some pw then (.redirect "/dashboard", some u)
                else (.loginPage (some "Invalid username or password"), s)
            | none => (.loginPage (some "Invalid username or password"), s)
        | none => (.loginPage (some "Invalid username or password"), s)
    | .get => (.loginPage none, s)

/-- `dashboard` (src/app.py lines 297-331): unauthenticated requests redirect
to `/`; a POST parses and clamps the brief, generates the content and renders
the results template; a GET renders the brief form.  The parse failures of
`int(...)` are absorbed by `try/except` into the defaults 1 and 6. -/
def dashboard (s : Session) (m : Method) (form : DashboardForm) : Response × Session :=
  if isAuthenticated s = false then (.redirect "/", s)
  else
    match m with
    | .post =>
        let product := (form.product.getD "").trim
        let num_videos := (pyInt (form.num_videos.getD "1")).getD 1
        let duration := (pyInt (form.duration.getD "6")).getD 6
        let num_videos := max 1 (min num_videos 10)
        let duration := max 2 (min duration 30)
        ( .resultsPage product num_videos duration
            (generate_directions product)
            (generate_storyboards product num_videos duration)
        , s )
    | .get => (.dashboardPage, s)

/-- `logout` (src/app.py lines 334-341): pop the username and redirect to `/`. -/
def logout (s : Session) : Response × Session :=
  (.redirect "/", none)

/-- `api_generate_video` (src/app.py lines 347-356): unauthenticated requests
get `\x7b"error": "unauthenticated"\x7d` with status 401; otherwise the JSON
body's `prompt` and converted `duration` are passed to `call_hailuo_api` and
the result is returned with the default status 200.  `prompt` and `duration`
are the already-decoded body fields (`data.get("prompt")`,
`int(data.get("duration", 6))`). -/
def api_generate_video (s : Session) (apiKey : Option String)
    (prompt : Option String) (duration : Int) : Response × Session :=
  if isAuthenticated s = false then (.jsonError "unauthenticated" 401, s)
  else
    (.jsonResult (call_hailuo_api prompt duration none none "768P" apiKey).1 200, s)

/-! ## Configuration (src/app.py lines 41-56) -/

/-- `app.secret_key = os.environ.get("FLASK_SECRET_KEY", "change-me")`
(src/app.py line 45), as a function of the environment variable's value. -/
def secret_key (env : Option String) : String :=
  env.getD "change-me"

/-- Warnings the module emits while configuring itself, as a function of the
`FLASK_SECRET_KEY` environment variable.  The module body of src/app.py
contains no logging, `warnings` call or raise on the fallback path (only a
source comment), so this list is empty for every environment. -/
def configWarnings (env : Option String) : List String :=
  []

/-- A session is valid when it is absent or holds one provisioned username. -/
def validSession (s : Session) : Prop :=
  s = none ∨ s = some "demo" ∨ s = some "admin"

/-! ## Statement vocabulary -/

/-- `respNV r` extracts the rendered `num_videos` of a results page. -/
def respNV : Response → Option Int
  | .resultsPage _ nv _ _ _ => some nv
  | _ => none

/-- `respDur r` extracts the rendered `duration` of a results page. -/
def respDur : Response → Option Int
  | .resultsPage _ _ d _ _ => some d
  | _ => none

/-- `leadsWith pat s` holds when `pat` is an initial run of `s`. -/
def leadsWith : List Char → List Char → Bool
  | [], _ => true
  | _ :: _, [] => false
  | c :: cs, d :: ds => c == d && leadsWith cs ds

/-- `containsSub pat s` holds when `pat` occurs contiguously inside `s`. -/
def containsSub (pat : List Char) : List Char → Bool
  | [] => pat.isEmpty
  | c :: rest => leadsWith pat (c :: rest) || containsSub pat rest

/-! ## Helper lemmas -/

theorem USERS_lookup_eq (u : String) :
    USERS.lookup u =
      if u = "demo" then some "password123"
      else if u = "admin" then some "admin" else none := by
  by_cases h1 : u = "demo" <;> by_cases h2 : u = "admin" <;>
    simp [USERS, List.lookup, h1, h2, show ∀ v : String, u ≠ v → (u == v) = false from
      fun v hv => beq_eq_false_iff_ne.mpr hv]

theorem login_unauth_post (s : Session) (hs : isAuthenticated s = false)
    (form : LoginForm) :
    login s .post form =
      match form.username with
      | some u =>
          match USERS.lookup u with
          | some pw =>
              if form.password = some pw then (.redirect "/dashboard", some u)
              else (.loginPage (some "Invalid username or password"), s)
          | none => (.loginPage (some "Invalid username or password"), s)
      | none => (.loginPage (some "Invalid username or password"), s) := by
  simp [login, hs]

theorem login_auth (s : Session) (m : Method) (form : LoginForm)
    (hs : isAuthenticated s = true) :
    login s m form = (.redirect "/dashboard", s) := by
  simp [login, hs]

theorem login_unauth_get (s : Session) (form : LoginForm)
    (hs : isAuthenticated s = false) :
    login s .get form = (.loginPage none, s) := by
  simp [login, hs]

theorem dashboard_post_auth (s : Session) (hs : isAuthenticated s = true)
    (f : DashboardForm) :
    dashboard s .post f =
      ( .resultsPage ((f.product.getD "").trim)
          (max 1 (min ((pyInt (f.num_videos.getD "1")).getD 1) 10))
          (max 2 (min ((pyInt (f.duration.getD "6")).getD 6) 30))
          (generate_directions ((f.product.getD "").trim))
          (generate_storyboards ((f.product.getD "").trim)
            (max 1 (min ((pyInt (f.num_videos.getD "1")).getD 1) 10))
            (max 2 (min ((pyInt (f.duration.getD "6")).getD 6) 30)))
      , s ) := by
  simp [dashboard, hs]

theorem hailuoPoll_succeed (tid : String) (poll : Nat → PollData) (i fuel : Nat)
    (h : (poll i).status = some "TASK_STATUS_SUCCEED") :
    hailuoPoll tid poll i (fuel + 1) =
      ({ task_id := some tid, video_url := firstVideoUrl (poll i).videos
       , message := none }, 0) := by
  simp [hailuoPoll, h]

theorem hailuoPoll_failed (tid : String) (poll : Nat → PollData) (i fuel : Nat)
    (h : (poll i).status = some "TASK_STATUS_FAILED") :
    hailuoPoll tid poll i (fuel + 1) =
      ({ task_id := some tid, video_url := none
       , message := some "Generation failed" }, 0) := by
  simp [hailuoPoll, h]

theorem hailuoPoll_step (tid : String) (poll : Nat → PollData) (i fuel : Nat)
    (h : isTerminal (poll i) = false) :
    hailuoPoll tid poll i (fuel + 1) =
      ((hailuoPoll tid poll (i + 1) fuel).1, (hailuoPoll tid poll (i + 1) fuel).2 + 1) := by
  have h1 : ¬ (poll i).status = some "TASK_STATUS_SUCCEED" := by
    intro hc; simp [isTerminal, hc] at h
  have h2 : ¬ (poll i).status = some "TASK_STATUS_FAILED" := by
    intro hc; simp [isTerminal, hc] at h
  simp [hailuoPoll, h1, h2]

theorem hailuoPoll_timeout (tid : String) (poll : Nat → PollData) :
    ∀ (fuel i : Nat), (∀ j, j < fuel → isTerminal (poll (i + j)) = false) →
      hailuoPoll tid poll i fuel =
        ({ task_id := some tid, video_url := none
         , message := some "Timed out waiting for video" }, fuel) := by
  intro fuel
  induction fuel with
  | zero => intro i h; rfl
  | succ n ih =>
      intro i h
      rw [hailuoPoll_step tid poll i n (by simpa using h 0 (Nat.succ_pos n))]
      rw [ih (i + 1) (fun j hj => by
        have hx := h (j + 1) (by omega)
        rwa [show i + 1 + j = i + (j + 1) by omega])]

theorem hailuoPoll_terminal (tid : String) (poll : Nat → PollData) :
    ∀ (k i fuel : Nat), k < fuel →
      (∀ j, j < k → isTerminal (poll (i + j)) = false) →
      isTerminal (poll (i + k)) = true →
      hailuoPoll tid poll i fuel = (terminalResult tid (poll (i + k)), k) := by
  intro k
  induction k with
  | zero =>
      intro i fuel hf hn ht
      obtain ⟨f, rfl⟩ : ∃ f, fuel = f + 1 := ⟨fuel - 1, by omega⟩
      simp only [Nat.add_zero] at ht
      by_cases hS : (poll i).status = some "TASK_STATUS_SUCCEED"
      · rw [hailuoPoll_succeed tid poll i f hS]
        simp [terminalResult, hS]
      · have hF : (poll i).status = some "TASK_STATUS_FAILED" := by
          simp [isTerminal, hS] at ht
          exact ht
        rw [hailuoPoll_failed tid poll i f hF]
        simp [terminalResult, hS]
  | succ n ih =>
      intro i fuel hf hn ht
      obtain ⟨f, rfl⟩ : ∃ f, fuel = f + 1 := ⟨fuel - 1, by omega⟩
      rw [hailuoPoll_step tid poll i f (by simpa using hn 0 (by omega))]
      rw [ih (i + 1) f (by omega)
        (fun j hj => by
          have hx := hn (j + 1) (by omega)
          rwa [show i + 1 + j = i + (j + 1) by omega])
        (by rwa [show i + 1 + n = i + (n + 1) by omega])]
      rw [show i + 1 + n = i + (n + 1) by omega]

/-! ## Claims -/

/-- C1 counterexample: the claim quantifies over every login POST, but a POST
carrying an already-authenticated session is redirected to the dashboard
before the credentials are examined (src/app.py lines 284-285).  With the
session holding "demo" and the invalid pair ("nobody", "wrong"), the
response is a redirect to the dashboard, not a re-render of the login page
with the error message. -/
theorem C1_counterexample :
    login (some "demo") .post { username := some "nobody", password := some "wrong" } =
      (.redirect "/dashboard", some "demo") ∧
    (login (some "demo") .post { username := some "nobody", password := some "wrong" }).1 ≠
      .loginPage (some "Invalid username or password") := by
  exact ⟨rfl, by decide⟩

/-- C1 (amended to login POSTs with no authenticated session): the pairs
("demo", "password123") and ("admin", "admin") succeed, store that username
in the session and redirect to the dashboard; every other pair re-renders
the login page with the literal message "Invalid username or password" and
leaves the session unchanged. -/
theorem C1_login_post (s : Session) (hs : isAuthenticated s = false)
    (form : LoginForm) :
    (form = { username := some "demo", password := some "password123" } →
      login s .post form = (.redirect "/dashboard", some "demo")) ∧
    (form = { username := some "admin", password := some "admin" } →
      login s .post form = (.redirect "/dashboard", some "admin")) ∧
    (form ≠ { username := some "demo", password := some "password123" } →
      form ≠ { username := some "admin", password := some "admin" } →
      login s .post form = (.loginPage (some "Invalid username or password"), s)) := by
  refine ⟨?_, ?_, ?_⟩
  · rintro rfl
    rw [login_unauth_post s hs]
    simp [USERS_lookup_eq]
  · rintro rfl
    rw [login_unauth_post s hs]
    simp [USERS_lookup_eq]
  · intro h1 h2
    rw [login_unauth_post s hs]
    obtain ⟨u?, p?⟩ := form
    cases u? with
    | none => rfl
    | some u =>
        dsimp only
        rw [USERS_lookup_eq]
        by_cases hu : u = "demo"
        · subst hu
          by_cases hp : p? = some "password123"
          · subst hp; exact absurd rfl h1
          · simp [hp]
        · by_cases ha : u = "admin"
          · subst ha
            by_cases hp : p? = some "admin"
            · subst hp; exact absurd rfl h2
            · simp [hu, hp]
          · simp [hu, ha]

/-- Witness for C1_login_post at the concrete unauthenticated session `none`
and the invalid pair ("demo", "wrong"). -/
theorem C1_login_post_witness :
    isAuthenticated none = false ∧
    login none .post { username := some "demo", password := some "wrong" } =
      (.loginPage (some "Invalid username or password"), none) :=
  ⟨rfl, (C1_login_post none rfl { username := some "demo", password := some "wrong" }).2.2
    (by decide) (by decide)⟩

/-- C2: with no authenticated session, every GET or POST to /dashboard
responds with a redirect to the login entry point "/", and a POST to
/api/generate_video responds with the JSON error "unauthenticated" and
status 401; both are well-formed responses of the handlers. -/
theorem C2_unauthenticated_guard (s : Session) (hs : isAuthenticated s = false)
    (m : Method) (f : DashboardForm) (apiKey prompt : Option String) (d : Int) :
    (dashboard s m f).1 = .redirect "/" ∧
    (api_generate_video s apiKey prompt d).1 = .jsonError "unauthenticated" 401 := by
  constructor
  · simp [dashboard, hs]
  · simp [api_generate_video, hs]

/-- Witness for C2_unauthenticated_guard at the absent session. -/
theorem C2_unauthenticated_guard_witness :
    isAuthenticated none = false ∧
    (dashboard none .post { product := none, num_videos := none, duration := none }).1 =
      .redirect "/" ∧
    (api_generate_video none none none 6).1 = .jsonError "unauthenticated" 401 :=
  ⟨rfl,
    (C2_unauthenticated_guard none rfl .post
      { product := none, num_videos := none, duration := none } none none 6).1,
    (C2_unauthenticated_guard none rfl .post
      { product := none, num_videos := none, duration := none } none none 6).2⟩

/-- C3: an authenticated POST to /dashboard parses `num_videos` with default
1 on parse failure and clamps it to [1,10], parses `duration` with default 6
on parse failure and clamps it to [2,30], and always renders the results
page (a parse failure is never surfaced as an error); in particular
num_videos=99 renders 10, num_videos=0 renders 1, duration=1 renders 2,
duration=100 renders 30, num_videos="abc" renders 1 and duration="abc"
renders 6. -/
theorem C3_dashboard_clamping (s : Session) (hs : isAuthenticated s = true)
    (f : DashboardForm) :
    (∃ dirs sb, (dashboard s .post f).1 =
      .resultsPage ((f.product.getD "").trim)
        (max 1 (min ((pyInt (f.num_videos.getD "1")).getD 1) 10))
        (max 2 (min ((pyInt (f.duration.getD "6")).getD 6) 30)) dirs sb) ∧
    respNV (dashboard s .post { product := some "P", num_videos := some "99", duration := some "6" }).1 = some 10 ∧
    respNV (dashboard s .post { product := some "P", num_videos := some "0", duration := some "6" }).1 = some 1 ∧
    respDur (dashboard s .post { product := some "P", num_videos := some "1", duration := some "1" }).1 = some 2 ∧
    respDur (dashboard s .post { product := some "P", num_videos := some "1", duration := some "100" }).1 = some 30 ∧
    respNV (dashboard s .post { product := some "P", num_videos := some "abc", duration := some "6" }).1 = some 1 ∧
    respDur (dashboard s .post { product := some "P", num_videos := some "1", duration := some "abc" }).1 = some 6 := by
  refine ⟨⟨generate_directions ((f.product.getD "").trim),
      generate_storyboards ((f.product.getD "").trim)
        (max 1 (min ((pyInt (f.num_videos.getD "1")).getD 1) 10))
        (max 2 (min ((pyInt (f.duration.getD "6")).getD 6) 30)),
      by rw [dashboard_post_auth s hs f]⟩, ?_, ?_, ?_, ?_, ?_, ?_⟩
  all_goals rw [dashboard_post_auth s hs]; rfl

/-- Witness for C3_dashboard_clamping at the session of user "demo". -/
theorem C3_dashboard_clamping_witness :
    isAuthenticated (some "demo") = true ∧
    respNV (dashboard (some "demo") .post
      { product := some "P", num_videos := some "99", duration := some "6" }).1 = some 10 :=
  ⟨rfl, (C3_dashboard_clamping (some "demo") rfl
    { product := some "P", num_videos := some "99", duration := some "6" }).2.1⟩

/-- C4: for every product and duration, generate_storyboards returns exactly
the keys safe, innovative, experimental with exactly 3 scenes each, and its
output is independent of num_videos. -/
theorem C4_storyboards_shape (p : String) (n m d : Int) :
    (generate_storyboards p n d).map (fun kv => (kv.1, kv.2.length)) =
      [("safe", 3), ("innovative", 3), ("experimental", 3)] ∧
    generate_storyboards p n d = generate_storyboards p m d :=
  ⟨rfl, rfl⟩

/-- C5 evaluated at the failing input (product "Widget", duration 6, safe
direction): the third scene's description carries the literal text
"\x7badjective\x7d impression of \x7bproduct\x7d" — the Python source omits the
`f` prefix on that string literal — so it contains neither the product
"Widget" nor the adjective phrase "safe and trustworthy", contradicting the
claim that every scene description interpolates both. -/
theorem C5_scene3_description_literal :
    (generate_storyboards "Widget" 1 6).lookup "safe" =
      some (build_scenes "Widget" 2 "safe and trustworthy") ∧
    (build_scenes "Widget" 2 "safe and trustworthy").get? 2 = some
      { description := "Scene\u00A03 (2s): Conclude by motivating viewers to act, leaving them with a memorable \x7badjective\x7d impression of \x7bproduct\x7d."
      , prompt := "A closing shot that leaves a strong safe and trustworthy impression of Widget; dramatic composition and inspiring text overlay." } ∧
    containsSub "Widget".toList
      "Scene\u00A03 (2s): Conclude by motivating viewers to act, leaving them with a memorable \x7badjective\x7d impression of \x7bproduct\x7d.".toList = false ∧
    containsSub "safe and trustworthy".toList
      "Scene\u00A03 (2s): Conclude by motivating viewers to act, leaving them with a memorable \x7badjective\x7d impression of \x7bproduct\x7d.".toList = false := by
  refine ⟨by decide, by decide, by decide, by decide⟩

/-- C6: generate_directions is deterministic, returns exactly the keys safe,
innovative, experimental in that order, and each value is a non-trivial
sentence with the product string interpolated into it (an empty product is
accepted: the surrounding text is non-empty). -/
theorem C6_directions_shape (p : String) :
    generate_directions p = generate_directions p ∧
    (generate_directions p).map Prod.fst = ["safe", "innovative", "experimental"] ∧
    (∃ a b, (generate_directions p).get? 0 = some ("safe", a ++ p ++ b) ∧
      a ≠ "" ∧ b ≠ "") ∧
    (∃ a b, (generate_directions p).get? 1 = some ("innovative", a ++ p ++ b) ∧
      a ≠ "" ∧ b ≠ "") ∧
    (∃ a b, (generate_directions p).get? 2 = some ("experimental", a ++ p ++ b) ∧
      a ≠ "" ∧ b ≠ "") :=
  ⟨rfl, rfl,
    ⟨_, _, rfl, by decide, by decide⟩,
    ⟨_, _, rfl, by decide, by decide⟩,
    ⟨_, _, rfl, by decide, by decide⟩⟩

/-- C7: with no API credential configured (unset, or the falsy empty
string), call_hailuo_api returns the placeholder result with task_id none,
video_url none and a non-empty message, performing zero HTTP requests and
zero seconds of sleep. -/
theorem C7_no_key_placeholder (prompt : Option String) (duration : Int)
    (image end_image : Option String) (resolution : String) :
    call_hailuo_api prompt duration image end_image resolution none =
      ( { task_id := none, video_url := none
        , message := some "Hailuo API key not configured; skipping real API call." }
      , { httpRequests := 0, sleepSeconds := 0 } ) ∧
    call_hailuo_api prompt duration image end_image resolution (some "") =
      ( { task_id := none, video_url := none
        , message := some "Hailuo API key not configured; skipping real API call." }
      , { httpRequests := 0, sleepSeconds := 0 } ) ∧
    "Hailuo API key not configured; skipping real API call." ≠ "" :=
  ⟨rfl, rfl, by decide⟩

/-- C10 counterexample: with the FLASK_SECRET_KEY environment variable
absent the application does fall back to the default "change-me", but
src/app.py emits no warning on that path (line 45 is a bare
`os.environ.get` with a default; the only caution is a source comment), so
the fallback is silent and the claimed warning path does not exist. -/
theorem C10_counterexample :
    ¬ (secret_key none = "change-me" ∧ configWarnings none ≠ []) := by
  intro h
  exact h.2 rfl

/-- C10 (amended): when the FLASK_SECRET_KEY environment variable is absent
the application falls back to the insecure default "change-me", and it does
so silently — no warning is emitted on that path. -/
theorem C10_silent_fallback :
    secret_key none = "change-me" ∧ configWarnings none = [] :=
  ⟨rfl, rfl⟩

/-- C8: the live path of the Video Task Client (the disabled block of
call_hailuo_api): a creation response whose task id is missing (None or
the falsy empty string) is a fatal protocol violation; otherwise the loop
polls the task-status endpoint for up to 60 attempts — sleeping one second
between attempts — returns the well-formed terminal result at the first
terminal poll (having slept once per preceding non-terminal poll), and
after 60 non-terminal polls returns the well-formed timeout result
(video_url none plus an explanatory message) instead of raising. -/
theorem call_live_some (tid : String) (poll : Nat → PollData) (h : tid ≠ "") :
    call_hailuo_api_live (some tid) poll = .ok (hailuoPoll tid poll 0 60) := by
  simp [call_hailuo_api_live, h]

theorem C8_live_poll_protocol (tid : String) (poll : Nat → PollData)
    (h : tid ≠ "") :
    call_hailuo_api_live none poll =
      .error "Failed to get task_id from Hailuo API response" ∧
    call_hailuo_api_live (some "") poll =
      .error "Failed to get task_id from Hailuo API response" ∧
    ((∀ i, i < 60 → isTerminal (poll i) = false) →
      call_hailuo_api_live (some tid) poll =
        .ok ({ task_id := some tid, video_url := none
             , message := some "Timed out waiting for video" }, 60)) ∧
    (∀ i, i < 60 → (∀ j, j < i → isTerminal (poll j) = false) →
      isTerminal (poll i) = true →
      call_hailuo_api_live (some tid) poll =
        .ok (terminalResult tid (poll i), i)) := by
  refine ⟨rfl, rfl, ?_, ?_⟩
  · intro hall
    rw [call_live_some tid poll h]
    rw [hailuoPoll_timeout tid poll 60 0 (fun j hj => by simpa using hall j hj)]
  · intro i hi hbefore hterm
    rw [call_live_some tid poll h]
    rw [hailuoPoll_terminal tid poll i 0 60 hi
      (fun j hj => by simpa using hbefore j hj) (by simpa using hterm)]
    simp

/-- Witness for C8_live_poll_protocol: a first poll that immediately
succeeds with one video URL returns that URL with zero sleeps. -/
theorem C8_live_poll_protocol_witness :
    call_hailuo_api_live (some "t")
      (fun _ => { status := some "TASK_STATUS_SUCCEED"
                , videos := [{ video_url := some "https://v.example/out.mp4" }] }) =
      .ok ({ task_id := some "t", video_url := some "https://v.example/out.mp4"
           , message := none }, 0) :=
  (C8_live_poll_protocol "t"
    (fun _ => { status := some "TASK_STATUS_SUCCEED"
              , videos := [{ video_url := some "https://v.example/out.mp4" }] })
    (by decide)).2.2.2 0 (by decide)
    (fun j hj => absurd hj (Nat.not_lt_zero j)) rfl

/-- C9: across the four handlers the session invariant holds — dashboard
and the API route never change the session, logout clears it and redirects
to "/", and login either leaves the session unchanged or (only on a
successful credential match) stores exactly the matching username; a
session that is absent or holds one provisioned username ("demo" or
"admin") stays that way under every handler. -/
theorem C9_session_invariant (s : Session) (m : Method) (lf : LoginForm)
    (f : DashboardForm) (apiKey prompt : Option String) (d : Int) :
    (dashboard s m f).2 = s ∧
    (api_generate_video s apiKey prompt d).2 = s ∧
    logout s = (.redirect "/", none) ∧
    ((login s m lf).2 = s ∨
      ∃ u pw, lf.username = some u ∧ lf.password = some pw ∧
        USERS.lookup u = some pw ∧
        login s m lf = (.redirect "/dashboard", some u)) ∧
    (validSession s →
      validSession (login s m lf).2 ∧ validSession (dashboard s m f).2 ∧
      validSession (logout s).2 ∧ validSession (api_generate_video s apiKey prompt d).2) := by
  have hd : (dashboard s m f).2 = s := by
    unfold dashboard
    split
    · rfl
    · cases m <;> rfl
  have ha : (api_generate_video s apiKey prompt d).2 = s := by
    unfold api_generate_video
    split <;> rfl
  have hlogin : (login s m lf).2 = s ∨
      ∃ u pw, lf.username = some u ∧ lf.password = some pw ∧
        USERS.lookup u = some pw ∧
        login s m lf = (.redirect "/dashboard", some u) := by
    cases hsb : isAuthenticated s with
    | true => rw [login_auth s m lf hsb]; left; rfl
    | false =>
        cases m with
        | get => rw [login_unauth_get s lf hsb]; left; rfl
        | post =>
            rw [login_unauth_post s hsb lf]
            cases hu : lf.username with
            | none => left; rfl
            | some u =>
                dsimp only
                cases hl : USERS.lookup u with
                | none => left; rfl
                | some pw =>
                    dsimp only
                    by_cases hp : lf.password = some pw
                    · right
                      exact ⟨u, pw, rfl, hp, hl, by rw [if_pos hp]⟩
                    · left
                      rw [if_neg hp]
  refine ⟨hd, ha, rfl, hlogin, ?_⟩
  intro hv
  refine ⟨?_, by rw [hd]; exact hv, Or.inl rfl, by rw [ha]; exact hv⟩
  rcases hlogin with h | ⟨u, pw, _, _, hl, he⟩
  · rw [h]; exact hv
  · rw [he]
    rw [USERS_lookup_eq] at hl
    by_cases h1 : u = "demo"
    · right; left; rw [h1]
    · by_cases h2 : u = "admin"
      · right; right; rw [h2]
      · rw [if_neg h1, if_neg h2] at hl
        exact absurd hl (by simp)

/-- Witness for C9_session_invariant: a successful login from the absent
session yields a valid session, and the invariant hypothesis is discharged
at the absent session. -/
theorem C9_session_invariant_witness :
    validSession (none : Session) ∧
    validSession ((login none .post
      { username := some "demo", password := some "password123" }).2) :=
  ⟨Or.inl rfl,
    ((C9_session_invariant none .post
      { username := some "demo", password := some "password123" }
      { product := none, num_videos := none, duration := none }
      none none 6).2.2.2.2 (Or.inl rfl)).1⟩
